import Mathlib

set_option maxHeartbeats 1000000

/-!
Shallow embedding of the crisos handoff / message-relay frontend:
the chat slice reducers and thunk, the ChatPanel send / poll / teardown /
reopen effects, and the AdminPanel queue, thread and action logic.
Each definition is translated from the corresponding JavaScript source.
-/

namespace Crisos

/-- Client-side message id: either a locally generated id (createId) or a
server-assigned numeric HandoffMessage id. -/
inductive MsgId where
  | client (n : Nat)
  | server (n : Nat)
deriving DecidableEq, Repr

/-- Quick-reply button as produced by the dialogue engine. -/
structure QuickReply where
  title : String
  payload : String
deriving DecidableEq, Repr

/-- Message in the chat transcript (chatSlice state.messages entries). -/
structure Message where
  id : MsgId
  sender : String
  text : String
  timestamp : String
  buttons : List QuickReply
deriving DecidableEq, Repr

/-- Location slice of the chat state. -/
structure LocationState where
  text : String
  lat : Option Int
  lon : Option Int
  source : String
deriving DecidableEq, Repr

/-- The chat slice state (fields of baseState relevant to the relay core). -/
structure ChatState where
  sessionId : String
  messages : List Message
  quickReplies : List QuickReply
  status : String
  error : Option String
  disclaimerAccepted : Bool
  handoffActive : Bool
  handoffRequestId : Option Nat
  handoffLastMessageId : Nat
  location : LocationState
  language : String
deriving DecidableEq, Repr

/-- Substring test on character lists, mirroring JavaScript
String.prototype.includes. -/
def strHasSub (hay pat : List Char) : Bool :=
  match hay with
  | [] => pat.isEmpty
  | _ :: rest => pat.isPrefixOf hay || strHasSub rest pat

/-- JavaScript hay.includes(pat). -/
def jsIncludes (hay pat : String) : Bool :=
  strHasSub hay.toList pat.toList

/-- JavaScript s.toLowerCase() (ASCII range, as used by the trigger list). -/
def jsToLower (s : String) : String :=
  String.mk (s.toList.map Char.toLower)

/-- HANDOFF_TRIGGERS from chatSlice. -/
def HANDOFF_TRIGGERS : List String :=
  ["connecting you to a human operator",
   "high risk detected",
   "waiting for operator",
   "human operator"]

/-- detectHandoff from chatSlice: false on empty text, else a
case-insensitive substring match against the fixed trigger list. -/
def detectHandoff (text : String) : Bool :=
  if text = "" then false
  else HANDOFF_TRIGGERS.any (fun phrase => jsIncludes (jsToLower text) phrase)

/-- JavaScript truthiness of an optional numeric id (null and 0 are falsy). -/
def jsTruthyId (o : Option Nat) : Bool :=
  match o with
  | some n => n ≠ 0
  | none => false

/-- Raw risk_score value as received by the console: absent, a non-numeric
value (JavaScript Number of it is NaN), or a numeric score. -/
inductive RawScore where
  | missing
  | nonNumeric
  | num (n : Int)
deriving DecidableEq, Repr

/-- JavaScript Number(value) restricted to the finite or NaN outcomes the
console distinguishes via Number.isFinite: none stands for NaN. -/
def jsNumber (v : RawScore) : Option Int :=
  match v with
  | .missing => none
  | .nonNumeric => none
  | .num n => some n

/-! ## chatSlice reducers (src/unnamed/part_003) -/

/-- Reducer addUserMessage: push a user message and clear quick replies. -/
def addUserMessage (st : ChatState) (newId : MsgId) (ts : String) (text : String) :
    ChatState :=
  { st with
    messages := st.messages ++ [⟨newId, "user", text, ts, []⟩],
    quickReplies := [] }

/-- Reducer addIncomingMessages: push each payload message. -/
def addIncomingMessages (st : ChatState) (incoming : List Message) : ChatState :=
  { st with messages := st.messages ++ incoming }

/-- Reducer addSystemMessage: skipped when the last message is already a
system message with the same text, otherwise pushes a system message. -/
def addSystemMessage (st : ChatState) (newId : MsgId) (ts : String) (text : String) :
    ChatState :=
  match st.messages.getLast? with
  | some last =>
    if last.sender = "system" ∧ last.text = text then st
    else { st with messages := st.messages ++ [⟨newId, "system", text, ts, []⟩] }
  | none => { st with messages := st.messages ++ [⟨newId, "system", text, ts, []⟩] }

/-- Reducer removeSystemMessageByText: drop every system message whose text
equals the payload. -/
def removeSystemMessageByText (st : ChatState) (text : String) : ChatState :=
  { st with
    messages := st.messages.filter
      (fun m => ¬(m.sender = "system" ∧ m.text = text)) }

/-- Reducer setHandoffActive. -/
def setHandoffActive (st : ChatState) (b : Bool) : ChatState :=
  { st with handoffActive := b }

/-- Reducer setHandoffRequest. -/
def setHandoffRequest (st : ChatState) (rid : Nat) : ChatState :=
  { st with handoffRequestId := some rid }

/-- Reducer setHandoffLastMessageId. -/
def setHandoffLastMessageId (st : ChatState) (n : Nat) : ChatState :=
  { st with handoffLastMessageId := n }

/-- Raw reply entry from the dialogue channel (data.messages element):
text and buttons may be absent. -/
structure BotEntry where
  text : Option String
  buttons : Option (List QuickReply)
deriving DecidableEq, Repr

/-- normalizeResponses from chatSlice, with the per-entry createId supply
made explicit (map and filter fused into one recursion: an entry is kept
exactly when its defaulted text is nonempty or it has buttons). -/
def normalizeGo (mkId : Nat → MsgId) (ts : String) (i : Nat) :
    List BotEntry → List Message
  | [] => []
  | e :: rest =>
    let m : Message := ⟨mkId i, "bot", e.text.getD "", ts, e.buttons.getD []⟩
    if m.text ≠ "" ∨ m.buttons ≠ [] then m :: normalizeGo mkId ts (i + 1) rest
    else normalizeGo mkId ts (i + 1) rest

/-- normalizeResponses entry point. -/
def normalizeResponses (mkId : Nat → MsgId) (ts : String)
    (responses : List BotEntry) : List Message :=
  normalizeGo mkId ts 0 responses

/-- Network calls the participant client can issue. -/
inductive ApiCall where
  | sendChat (sender_id : String) (message : String) (locale : String)
      (location : LocationState)
  | appendMessage (request_id : Nat) (sender : String) (text : String)
  | getActiveRequest (conversation_id : String)
  | statusTransition (request_id : Nat) (target : String) (suppress : Bool)
deriving DecidableEq, Repr

/-- sendMessage thunk body: with the disclaimer not accepted it resolves
with an empty list and issues no request; otherwise it posts the payload to
the dialogue channel and resolves with the returned messages. The network
response is passed in as apiMessages. -/
def sendMessageThunk (st : ChatState) (text : String)
    (apiMessages : List BotEntry) : List BotEntry × List ApiCall :=
  if st.disclaimerAccepted = false then ([], [])
  else (apiMessages,
    [ApiCall.sendChat st.sessionId text st.language st.location])

/-- sendMessage.fulfilled reducer: append the normalized responses, take the
last entry's buttons as quick replies, and flip handoffActive on a trigger. -/
def sendMessageFulfilled (st : ChatState) (mkId : Nat → MsgId) (ts : String)
    (payload : List BotEntry) : ChatState :=
  let st0 := { st with status := "idle", error := none }
  let normalized := normalizeResponses mkId ts payload
  let st1 := { st0 with messages := st0.messages ++ normalized }
  let st2 := { st1 with
    quickReplies := ((normalized.getLast?).map Message.buttons).getD [] }
  if normalized.any (fun m => detectHandoff m.text) then
    { st2 with handoffActive := true }
  else st2

/-! ## ChatPanel handlers and effects (src/frontend/src/features/chat/Composer.jsx) -/

/-- Insertion into the ignore set (a JavaScript Set of numeric ids). -/
def jsSetInsert (s : List Nat) (n : Nat) : List Nat :=
  if s.contains n then s else s ++ [n]

/-- Result of the delivery branch of ChatPanel.handleSend: the local state
after the dispatched actions, the ignore set after the append response, and
the issued calls. appendResp is the server-assigned id of the appended
message (none when the call failed or returned no id). -/
def deliverHandoff (st : ChatState) (ignore : List Nat) (rid : Nat)
    (text : String) (appendResp : Option Nat) :
    ChatState × List Nat × List ApiCall :=
  (st,
   (match appendResp with
    | some mid => jsSetInsert ignore mid
    | none => ignore),
   [ApiCall.appendMessage rid "user" text])

/-- ChatPanel.handleSend: no-op without the disclaimer; locally render the
user message; in handoff mode append to the relay (resolving the active
request first when no id is cached), otherwise dispatch the sendMessage
thunk to the dialogue channel. activeResp is the request id returned by
getActiveHandoffRequest. -/
def handleSend (st : ChatState) (ignore : List Nat) (text : String)
    (newId : MsgId) (ts : String) (activeResp : Option Nat)
    (appendResp : Option Nat) : ChatState × List Nat × List ApiCall :=
  if st.disclaimerAccepted = false then (st, ignore, [])
  else
    let st1 := addUserMessage st newId ts text
    if st1.handoffActive then
      if jsTruthyId st1.handoffRequestId then
        deliverHandoff st1 ignore (st1.handoffRequestId.getD 0) text appendResp
      else
        match activeResp with
        | some rid =>
          if rid ≠ 0 then
            let out := deliverHandoff (setHandoffRequest st1 rid) ignore rid
              text appendResp
            (out.1, out.2.1, ApiCall.getActiveRequest st1.sessionId :: out.2.2)
          else (st1, ignore, [ApiCall.getActiveRequest st1.sessionId])
        | none => (st1, ignore, [ApiCall.getActiveRequest st1.sessionId])
    else
      ({ st1 with status := "sending", error := none }, ignore,
       (sendMessageThunk st1 text []).2)

/-- Raw HandoffMessage as returned by the relay. -/
structure ServerMsg where
  id : Nat
  sender : String
  text : String
  created_at : String
deriving DecidableEq, Repr

/-- Mapping a polled relay message into the rendered transcript shape. -/
def formatHandoffMessage (m : ServerMsg) : Message :=
  ⟨MsgId.server m.id,
   if m.sender = "agent" then "bot" else m.sender,
   m.text, m.created_at, []⟩

/-- One round of the ChatPanel handoff poll effect applied to a poll result:
skip when nothing returned; otherwise filter out own echoed user messages,
append the rest, advance the cursor to the last returned id, and evict every
ignore-set id at or below it. -/
def chatPollStep (st : ChatState) (ignore : List Nat)
    (data : List ServerMsg) : ChatState × List Nat :=
  if st.disclaimerAccepted = false then (st, ignore)
  else if ¬(st.handoffActive ∧ jsTruthyId st.handoffRequestId) then (st, ignore)
  else
    match data.getLast? with
    | none => (st, ignore)
    | some lastMsg =>
      let lastId := lastMsg.id
      let formatted := (data.filter
        (fun m => ¬(m.sender = "user" ∧ ignore.contains m.id))).map
        formatHandoffMessage
      let st1 := addIncomingMessages st formatted
      let st2 := setHandoffLastMessageId st1 lastId
      (st2, ignore.filter (fun i => ¬(i ≤ lastId)))

/-! ## Session-Continuity Guard: teardown (ChatPanel.closeHandoff) -/

/-- Body of a teardown request. -/
inductive TeardownPayload where
  | note (request_id : Nat) (sender : String) (text : String)
  | statusChange (status : String)
deriving DecidableEq, Repr

/-- Observable teardown event: a tab-scoped storage write, a sendBeacon
delivery, or a keepalive fetch delivery (paths relative to API_BASE_URL). -/
inductive TeardownEvent where
  | storageSet (key : String) (value : String)
  | beacon (path : String) (body : TeardownPayload)
  | fetchKeepalive (path : String) (body : TeardownPayload)
deriving DecidableEq, Repr

/-- Relay path for the status endpoint of a request. -/
def statusPath (rid : Nat) : String :=
  "/api/handoff/requests/" ++ toString rid ++ "/status"

/-- Relay path for the messages endpoint. -/
def messagesPath : String := "/api/handoff/messages"

/-- ChatPanel.closeHandoff, registered only while handoffActive with a known
request id: guarded by the closing flag, it writes the tab-scoped flag and
request id, then fires the closure note and the closed transition through
sendBeacon when available, else through a keepalive fetch. Returns the new
closing flag and the ordered event trace. -/
def closeHandoff (handoffRequestId : Nat) (closing : Bool)
    (beaconAvailable : Bool) : Bool × List TeardownEvent :=
  if closing then (true, [])
  else
    let note := TeardownPayload.note handoffRequestId "system"
      "User left the chat. Session closed."
    let payload := TeardownPayload.statusChange "closed"
    let deliver := fun (p : String) (b : TeardownPayload) =>
      if beaconAvailable then TeardownEvent.beacon p b
      else TeardownEvent.fetchKeepalive p b
    (true,
     [TeardownEvent.storageSet "crisos_handoff_closed_on_unload" "1",
      TeardownEvent.storageSet "crisos_handoff_request_id"
        (toString handoffRequestId),
      deliver messagesPath note,
      deliver (statusPath handoffRequestId) payload])

/-! ## Session-Continuity Guard: reopen effect (ChatPanel startup) -/

/-- Decimal parser helper for stored request ids. -/
def parseNatGo (acc : Nat) : List Char → Option Nat
  | [] => some acc
  | c :: rest =>
    if c.isDigit then parseNatGo (acc * 10 + (c.toNat - 48)) rest
    else none

/-- JavaScript Number applied to a stored decimal string, with NaN as
none (the reopen effect treats NaN and 0 alike, so the empty string is
also mapped to none here). -/
def jsParseNat (s : String) : Option Nat :=
  match s.toList with
  | [] => none
  | l => parseNatGo 0 l

/-- Tab-scoped sessionStorage keys read by the reopen effect. -/
structure TabStorage where
  closedOnUnload : Option String
  requestIdStr : Option String
deriving DecidableEq, Repr

/-- Runtime error raised by the effect body. -/
inductive JsError where
  | referenceError (name : String)
deriving DecidableEq, Repr

/-- The reopen effect run on ChatPanel mount. The dispatch of
setHandoffActive is modelled as a ReferenceError because the ChatPanel
module does not import setHandoffActive from the chat slice, so execution
stops there: in the not-yet-active branch the transition fetch is never
reached. Returns the storage, the state after the dispatched actions, the
issued calls, and the error, if any. -/
def reopenEffect (storage : TabStorage) (st : ChatState) :
    TabStorage × ChatState × List ApiCall × Option JsError :=
  match storage.closedOnUnload with
  | none => (storage, st, [], none)
  | some _ =>
    let fromState := (st.handoffRequestId).getD 0
    let fromStorage :=
      match storage.requestIdStr with
      | some s => (jsParseNat s).getD 0
      | none => 0
    let requestId := if fromState ≠ 0 then fromState else fromStorage
    if requestId = 0 then (storage, st, [], none)
    else
      let storage1 : TabStorage := ⟨none, none⟩
      let st1 := removeSystemMessageByText st
        "User left the chat. Session closed."
      if st.handoffActive = false then
        let st2 := setHandoffLastMessageId (setHandoffRequest st1 requestId) 0
        (storage1, st2, [], some (JsError.referenceError "setHandoffActive"))
      else
        (storage1, st1,
         [ApiCall.statusTransition requestId "open" true], none)

/-! ## AdminPanel (src/frontend/src/features/admin/AdminPanel.jsx) -/

/-- HandoffRequest as listed in the operator queue. -/
structure AdminRequest where
  id : Nat
  conversation_id : String
  status : String
  assigned_to : Option String
  user_status : String
  crisis_type : String
  risk_score : RawScore
  last_message_sender : Option String
deriving DecidableEq, Repr

/-- normalizeRisk from AdminPanel: emergency with a missing, non-numeric or
zero score is forced to 90; safe is forced to 10; otherwise the numeric
score is used (0 when not finite). -/
def normalizeRisk (value : RawScore) (userStatus : String) : Int :=
  if userStatus = "emergency" ∧
      (jsNumber value = none ∨ jsNumber value = some 0) then 90
  else if userStatus = "safe" then 10
  else (jsNumber value).getD 0

/-- riskLabel from AdminPanel. -/
def riskLabel (value : Int) (userStatus : String) : String :=
  if userStatus = "safe" then "Low"
  else if value ≥ 70 then "High"
  else if value ≥ 40 then "Medium"
  else "Low"

/-- Displayed risk indicator for a raw score and user status, as computed
in the queue cards and the summary. -/
def displayedRisk (value : RawScore) (userStatus : String) : String :=
  riskLabel (normalizeRisk value userStatus) userStatus

/-- assignmentLocked from AdminPanel: the selected request is assigned to a
different operator and the viewer is not an administrator (a missing or
empty assigned_to is falsy in the source and is modelled as none). -/
def assignmentLocked (selectedRequest : Option AdminRequest)
    (username : String) (userType : String) : Bool :=
  match selectedRequest with
  | none => false
  | some r =>
    match r.assigned_to with
    | none => false
    | some a => a ≠ username ∧ userType ≠ "admin"

/-- closedLocked from AdminPanel. -/
def closedLocked (selectedRequest : Option AdminRequest) : Bool :=
  match selectedRequest with
  | none => false
  | some r => r.status = "closed"

/-- Relay calls the operator console can issue. -/
inductive AdminApiCall where
  | sendMessage (request_id : Nat) (sender : String) (text : String)
  | updateStatus (request_id : Nat) (status : String)
  | getMessages (request_id : Nat) (after_id : Nat)
deriving DecidableEq, Repr

/-- AdminPanel.handleSend: rejected when the draft is empty, nothing is
selected, there is no token, or either lock is set; otherwise appends an
agent reply. -/
def adminHandleSend (token : String) (draft : String) (selectedId : Option Nat)
    (selectedRequest : Option AdminRequest) (username : String)
    (userType : String) : Option AdminApiCall :=
  let text := draft.trim
  if text = "" ∨ ¬jsTruthyId selectedId ∨ token = "" ∨
      assignmentLocked selectedRequest username userType = true ∨
      closedLocked selectedRequest = true then none
  else some (AdminApiCall.sendMessage (selectedId.getD 0) "agent" text)

/-- AdminPanel.handleStatus: rejected when nothing is selected, there is no
token, or the request is closed; otherwise posts the status transition. -/
def adminHandleStatus (token : String) (selectedId : Option Nat)
    (selectedRequest : Option AdminRequest) (status : String) :
    Option AdminApiCall :=
  if ¬jsTruthyId selectedId ∨ token = "" ∨ closedLocked selectedRequest = true
  then none
  else some (AdminApiCall.updateStatus (selectedId.getD 0) status)

/-- Operator-side view of a thread message. -/
structure AdminMsg where
  id : Nat
  sender : String
  text : String
  timestamp : String
deriving DecidableEq, Repr

/-- Local thread state of the operator console. -/
structure AdminThreadState where
  messages : List AdminMsg
  lastMessageId : Nat
deriving DecidableEq, Repr

/-- Mapping a relay message into the console thread shape. -/
def toAdminMsg (m : ServerMsg) : AdminMsg :=
  ⟨m.id, m.sender, m.text, m.created_at⟩

/-- Selection effect of AdminPanel: reset the thread and the cursor to 0,
fetch with after_id 0, store the incoming messages and advance the cursor
to the last incoming id when any. data is the network response. -/
def adminSelectStep (token : String) (selectedId : Option Nat)
    (st : AdminThreadState) (data : List ServerMsg) :
    AdminThreadState × List AdminApiCall :=
  if ¬jsTruthyId selectedId ∨ token = "" then (st, [])
  else
    let incoming := data.map toAdminMsg
    let cursor :=
      match incoming.getLast? with
      | some last => last.id
      | none => 0
    (⟨incoming, cursor⟩, [AdminApiCall.getMessages (selectedId.getD 0) 0])

/-- One round of the AdminPanel message poll effect: fetch with the current
cursor as after_id; when messages come back, append exactly those messages
and advance the cursor to the last returned id. -/
def adminPollStep (token : String) (selectedId : Option Nat)
    (st : AdminThreadState) (data : List ServerMsg) :
    AdminThreadState × List AdminApiCall :=
  if ¬jsTruthyId selectedId ∨ token = "" then (st, [])
  else
    let call := AdminApiCall.getMessages (selectedId.getD 0) st.lastMessageId
    match data.getLast? with
    | none => (st, [call])
    | some lastMsg =>
      (⟨st.messages ++ data.map toAdminMsg, lastMsg.id⟩, [call])

/-! ## Shared helper definitions for the theorems -/

/-- Number of transcript messages whose text equals t. -/
def countText (msgs : List Message) (t : String) : Nat :=
  (msgs.filter (fun m => m.text = t)).length

/-- Whether a participant call goes to the dialogue channel. -/
def isSendChat (c : ApiCall) : Bool :=
  match c with
  | .sendChat _ _ _ _ => true
  | _ => false

/-- Default location value. -/
def exLocation : LocationState := ⟨"", none, none, "manual"⟩

/-- A concrete baseline chat state with the disclaimer accepted. -/
def exState : ChatState :=
  ⟨"web_1", [], [], "idle", none, true, false, none, 0, exLocation, "en"⟩

/-- A concrete chat state in handoff mode with a cached request id. -/
def stHandoff : ChatState :=
  { exState with handoffActive := true, handoffRequestId := some 5 }

/-- A concrete chat state with the disclaimer not accepted. -/
def stNoDisc : ChatState := { exState with disclaimerAccepted := false }

/-- The locally rendered session-closure notice. -/
def closedNote : Message :=
  ⟨MsgId.server 3, "system", "User left the chat. Session closed.", "t0", []⟩

/-- A concrete state right after a reload that left the closure notice. -/
def stReload : ChatState := { exState with messages := [closedNote] }

/-- A concrete system message. -/
def sysHi : Message := ⟨MsgId.client 0, "system", "hi", "t0", []⟩

/-- A concrete state whose last message is the system message sysHi. -/
def stSysLast : ChatState := { exState with messages := [sysHi] }

/-- A concrete request assigned to operator alice. -/
def reqAssigned : AdminRequest :=
  ⟨1, "web_1", "assigned", some "alice", "emergency", "flood",
   RawScore.num 80, some "user"⟩

/-- A concrete closed request. -/
def reqClosed : AdminRequest :=
  ⟨2, "web_2", "closed", none, "safe", "flood", RawScore.num 20, none⟩

/-- Helper: countText distributes over append. -/
theorem countText_append (a b : List Message) (t : String) :
    countText (a ++ b) t = countText a t + countText b t := by
  simp [countText, List.filter_append]

/-- Helper: normalizeGo preserves the trigger test of the raw entries. -/
theorem normalizeGo_any_detect (mkId : Nat → MsgId) (ts : String) :
    ∀ (rs : List BotEntry) (i : Nat),
      (normalizeGo mkId ts i rs).any (fun m => detectHandoff m.text) =
        rs.any (fun e => detectHandoff (e.text.getD "")) := by
  intro rs
  induction rs with
  | nil => intro i; rfl
  | cons e rest ih =>
    intro i
    by_cases hkeep : (e.text.getD "" ≠ "" ∨ e.buttons.getD [] ≠ [])
    · simp only [normalizeGo, if_pos hkeep, List.any_cons, ih]
    · have htext : e.text.getD "" = "" := by
        by_contra hne
        exact hkeep (Or.inl hne)
      have hbuttons : e.buttons.getD [] = [] := by
        by_contra hne
        exact hkeep (Or.inr hne)
      have hdet : detectHandoff (e.text.getD "") = false := by
        rw [htext]; decide
      simp only [normalizeGo, if_neg hkeep, List.any_cons, hdet,
        Bool.false_or]
      exact ih (i + 1)

end Crisos

namespace Crisos

/-- C6: risk normalization. Emergency with a missing, non-numeric or zero
raw score displays High; safe displays Low regardless of the raw score
(safe with 95 shows Low, emergency with 0 shows High); otherwise the
numeric score is bucketed Low below 40, Medium from 40 through 69, High at
70 or above. -/
theorem C6_risk_normalization :
    (∀ raw : RawScore, jsNumber raw = none ∨ jsNumber raw = some 0 →
      displayedRisk raw "emergency" = "High")
    ∧ (∀ raw : RawScore, displayedRisk raw "safe" = "Low")
    ∧ displayedRisk (RawScore.num 95) "safe" = "Low"
    ∧ displayedRisk (RawScore.num 0) "emergency" = "High"
    ∧ (∀ (n : Int) (status : String), status ≠ "safe" →
        ¬(status = "emergency" ∧ n = 0) →
        displayedRisk (RawScore.num n) status =
          (if n < 40 then "Low" else if n ≤ 69 then "Medium" else "High")) := by
  refine ⟨?_, ?_, ?_, ?_, ?_⟩
  · intro raw hraw
    have h90 : normalizeRisk raw "emergency" = 90 := by
      simp [normalizeRisk, hraw]
    simp [displayedRisk, h90, riskLabel]
  · intro raw
    simp [displayedRisk, riskLabel]
  · decide
  · decide
  · intro n status hsafe hemz
    have hnorm : normalizeRisk (RawScore.num n) status = n := by
      simp only [normalizeRisk, jsNumber]
      rw [if_neg, if_neg hsafe]
      · rfl
      · rintro ⟨he, hz⟩
        rcases hz with hz | hz
        · exact Option.noConfusion hz
        · exact hemz ⟨he, Option.some.inj hz⟩
    rw [displayedRisk, hnorm, riskLabel, if_neg hsafe]
    rcases lt_or_le n 40 with h40 | h40
    · rw [if_neg (by omega), if_neg (by omega), if_pos h40]
    · rcases le_or_lt n 69 with h69 | h69
      · rw [if_neg (by omega), if_pos (by omega), if_neg (by omega), if_pos h69]
      · rw [if_pos (show n ≥ 70 by omega), if_neg (show ¬n < 40 by omega),
          if_neg (show ¬n ≤ 69 by omega)]

/-- C6 witness: the theorem applied at concrete scores. -/
theorem C6_risk_normalization_witness :
    displayedRisk RawScore.missing "emergency" = "High"
    ∧ displayedRisk (RawScore.num 95) "safe" = "Low"
    ∧ displayedRisk (RawScore.num 55) "trapped" = "Medium" := by
  refine ⟨C6_risk_normalization.1 RawScore.missing (Or.inl rfl),
          C6_risk_normalization.2.1 (RawScore.num 95), ?_⟩
  have h := C6_risk_normalization.2.2.2.2 55 "trapped" (by decide) (by decide)
  simpa using h

/-- C9: addSystemMessage is idempotent on consecutive duplicates — when the
last message is already a system message with the same text the state is
unchanged, otherwise exactly one system message with that text is
appended. -/
theorem C9_addSystemMessage_idempotent (st : ChatState) (nid : MsgId)
    (ts T : String) :
    ((∃ last, st.messages.getLast? = some last ∧ last.sender = "system" ∧
        last.text = T) →
      addSystemMessage st nid ts T = st)
    ∧ ((∀ last, st.messages.getLast? = some last →
        ¬(last.sender = "system" ∧ last.text = T)) →
      (addSystemMessage st nid ts T).messages =
        st.messages ++ [⟨nid, "system", T, ts, []⟩]) := by
  constructor
  · rintro ⟨last, hlast, hsender, htext⟩
    simp [addSystemMessage, hlast, hsender, htext]
  · intro hno
    unfold addSystemMessage
    cases hlast : st.messages.getLast? with
    | none => rfl
    | some last =>
      dsimp only
      rw [if_neg (hno last hlast)]

/-- C9 witness: the theorem applied at a duplicate-last state and at an
empty transcript. -/
theorem C9_addSystemMessage_idempotent_witness :
    addSystemMessage stSysLast (MsgId.client 1) "t1" "hi" = stSysLast
    ∧ (addSystemMessage exState (MsgId.client 1) "t1" "hi").messages =
        [⟨MsgId.client 1, "system", "hi", "t1", []⟩] := by
  constructor
  · exact (C9_addSystemMessage_idempotent stSysLast (MsgId.client 1) "t1"
      "hi").1 ⟨sysHi, rfl, rfl, rfl⟩
  · have h := (C9_addSystemMessage_idempotent exState (MsgId.client 1) "t1"
      "hi").2 (by intro last hlast; simp [exState] at hlast)
    simpa [exState] using h

/-- C7: processing a batch of dialogue-channel replies sets handoffActive
exactly when it was already set or some reply text contains a trigger
phrase (case-insensitive substring against the fixed list). -/
theorem C7_handoff_trigger (st : ChatState) (mkId : Nat → MsgId)
    (ts : String) (payload : List BotEntry) :
    (sendMessageFulfilled st mkId ts payload).handoffActive = true ↔
      (st.handoffActive = true ∨
        payload.any (fun e => detectHandoff (e.text.getD "")) = true) := by
  unfold sendMessageFulfilled
  rw [show normalizeResponses mkId ts payload = normalizeGo mkId ts 0 payload
    from rfl]
  by_cases h : (normalizeGo mkId ts 0 payload).any
      (fun m => detectHandoff m.text) = true
  · rw [if_pos h]
    rw [normalizeGo_any_detect mkId ts payload 0] at h
    simp [h]
  · rw [if_neg h]
    rw [normalizeGo_any_detect mkId ts payload 0] at h
    simp [h]

/-- C10: with the disclaimer not accepted the sendMessage thunk issues no
dialogue-channel request and resolves with an empty list, its fulfillment
appends nothing to the transcript, and handleSend dispatches nothing. -/
theorem C10_disclaimer_guard (st : ChatState) (text ts : String)
    (api : List BotEntry) (mkId : Nat → MsgId) (ig : List Nat) (nid : MsgId)
    (aResp pResp : Option Nat) (h : st.disclaimerAccepted = false) :
    sendMessageThunk st text api = ([], [])
    ∧ (sendMessageFulfilled st mkId ts []).messages = st.messages
    ∧ handleSend st ig text nid ts aResp pResp = (st, ig, []) := by
  refine ⟨?_, ?_, ?_⟩
  · simp [sendMessageThunk, h]
  · simp [sendMessageFulfilled, normalizeResponses, normalizeGo]
  · simp [handleSend, h]

/-- C10 witness: the theorem applied at a concrete state without the
disclaimer. -/
theorem C10_disclaimer_guard_witness :
    sendMessageThunk stNoDisc "help" [] = ([], [])
    ∧ (sendMessageFulfilled stNoDisc (fun n => MsgId.client n) "t" []).messages
        = stNoDisc.messages
    ∧ handleSend stNoDisc [] "help" (MsgId.client 1) "t" none none =
        (stNoDisc, [], []) :=
  C10_disclaimer_guard stNoDisc "help" "t" [] (fun n => MsgId.client n) []
    (MsgId.client 1) none none rfl

/-- C3: while handoffActive the participant send path never calls the
dialogue channel — with a cached request id it appends the text to the
relay with sender user, and without one it first resolves the active
request for its own conversation identifier and then appends; with
handoffActive false the text goes to the dialogue channel. -/
theorem C3_channel_switch (st : ChatState) (ig : List Nat) (text : String)
    (nid : MsgId) (ts : String) (aResp pResp : Option Nat)
    (hd : st.disclaimerAccepted = true) :
    (st.handoffActive = true →
      ∀ c ∈ (handleSend st ig text nid ts aResp pResp).2.2,
        isSendChat c = false)
    ∧ (st.handoffActive = true → ∀ rid, st.handoffRequestId = some rid →
        rid ≠ 0 →
        (handleSend st ig text nid ts aResp pResp).2.2 =
          [ApiCall.appendMessage rid "user" text])
    ∧ (st.handoffActive = true → st.handoffRequestId = none →
        ∀ rid, aResp = some rid → rid ≠ 0 →
        (handleSend st ig text nid ts aResp pResp).2.2 =
          [ApiCall.getActiveRequest st.sessionId,
           ApiCall.appendMessage rid "user" text])
    ∧ (st.handoffActive = false →
        (handleSend st ig text nid ts aResp pResp).2.2 =
          [ApiCall.sendChat st.sessionId text st.language st.location]) := by
  refine ⟨?_, ?_, ?_, ?_⟩
  · intro ha c hc
    by_cases htr : jsTruthyId st.handoffRequestId = true
    · simp [handleSend, hd, addUserMessage, ha, htr, deliverHandoff] at hc
      subst hc; rfl
    · cases aResp with
      | none =>
        simp [handleSend, hd, addUserMessage, ha, htr] at hc
        subst hc; rfl
      | some rid =>
        by_cases hz : rid = 0
        · simp [handleSend, hd, addUserMessage, ha, htr, hz] at hc
          subst hc; rfl
        · simp [handleSend, hd, addUserMessage, ha, htr, hz,
            deliverHandoff] at hc
          rcases hc with rfl | rfl <;> rfl
  · intro ha rid hrid hz
    simp [handleSend, hd, addUserMessage, ha, hrid, jsTruthyId, hz,
      deliverHandoff]
  · intro ha hnone rid hresp hz
    have htr : jsTruthyId st.handoffRequestId = false := by
      simp [jsTruthyId, hnone]
    simp [handleSend, hd, addUserMessage, ha, htr, hresp, hz, deliverHandoff]
  · intro ha
    simp [handleSend, hd, addUserMessage, ha, sendMessageThunk]

/-- C3 witness: the theorem applied at concrete handoff and non-handoff
states. -/
theorem C3_channel_switch_witness :
    (handleSend stHandoff [] "help" (MsgId.client 1) "t" none (some 9)).2.2 =
      [ApiCall.appendMessage 5 "user" "help"]
    ∧ (handleSend exState [] "hello" (MsgId.client 1) "t" none none).2.2 =
      [ApiCall.sendChat "web_1" "hello" "en" exLocation] := by
  constructor
  · exact (C3_channel_switch stHandoff [] "help" (MsgId.client 1) "t" none
      (some 9) rfl).2.1 rfl 5 rfl (by decide)
  · exact (C3_channel_switch exState [] "hello" (MsgId.client 1) "t" none
      none rfl).2.2.2 rfl

/-- Helper: the ignore set contains an id just inserted. -/
theorem jsSetInsert_contains (s : List Nat) (n : Nat) :
    (jsSetInsert s n).contains n = true := by
  unfold jsSetInsert
  by_cases h : s.contains n = true
  · rw [if_pos h]; exact h
  · rw [if_neg h]
    simp

/-- Helper: filtering removes an element the predicate rejects. -/
theorem contains_filter_false (l : List Nat) (p : Nat → Bool) (n : Nat)
    (h : p n = false) : (l.filter p).contains n = false := by
  induction l with
  | nil => rfl
  | cons a t ih =>
    by_cases hpa : p a = true
    · rw [List.filter_cons_of_pos hpa]
      have hne : (n == a) = false := by
        by_cases han : a = n
        · subst han; rw [hpa] at h; exact absurd h (by simp)
        · simp [Ne.symm han]
      simp only [List.contains_cons, hne, Bool.false_or]
      exact ih
    · rw [List.filter_cons_of_neg (by simpa using hpa)]
      exact ih

/-- Helper: one poll round with the guards satisfied and a nonempty result
appends the non-echoed messages, advances the cursor to the last returned
id and prunes the ignore set at that cursor. -/
theorem chatPollStep_run (st : ChatState) (ig : List Nat)
    (data : List ServerMsg) (lastMsg : ServerMsg)
    (hd : st.disclaimerAccepted = true) (ha : st.handoffActive = true)
    (htr : jsTruthyId st.handoffRequestId = true)
    (hl : data.getLast? = some lastMsg) :
    chatPollStep st ig data =
      ({ st with
          messages := st.messages ++
            (data.filter
              (fun m => ¬(m.sender = "user" ∧ ig.contains m.id))).map
              formatHandoffMessage,
          handoffLastMessageId := lastMsg.id },
       ig.filter (fun i => ¬(i ≤ lastMsg.id))) := by
  simp [chatPollStep, hd, ha, htr, hl, addIncomingMessages,
    setHandoffLastMessageId]

/-- C2: echo suppression. The server id of a locally sent message is
recorded in the ignore set; the next poll returning that same user message
filters it out so the transcript still holds exactly one instance of the
text, and every ignore-set id at or below the advanced cursor is evicted
after each poll. -/
theorem C2_echo_suppression :
    (∀ (st : ChatState) (ig : List Nat) (text : String) (nid : MsgId)
        (ts ts2 : String) (sid rid : Nat),
      st.disclaimerAccepted = true →
      st.handoffActive = true →
      st.handoffRequestId = some rid →
      rid ≠ 0 →
      countText st.messages text = 0 →
      countText (handleSend st ig text nid ts none (some sid)).1.messages
          text = 1
      ∧ (handleSend st ig text nid ts none (some sid)).2.1.contains sid = true
      ∧ countText
          (chatPollStep (handleSend st ig text nid ts none (some sid)).1
            (handleSend st ig text nid ts none (some sid)).2.1
            [⟨sid, "user", text, ts2⟩]).1.messages text = 1
      ∧ (chatPollStep (handleSend st ig text nid ts none (some sid)).1
            (handleSend st ig text nid ts none (some sid)).2.1
            [⟨sid, "user", text, ts2⟩]).2.contains sid = false)
    ∧ (∀ (st : ChatState) (ig : List Nat) (data : List ServerMsg)
        (lastMsg : ServerMsg),
        st.disclaimerAccepted = true → st.handoffActive = true →
        jsTruthyId st.handoffRequestId = true →
        data.getLast? = some lastMsg →
        ∀ i ∈ (chatPollStep st ig data).2,
          (chatPollStep st ig data).1.handoffLastMessageId < i) := by
  constructor
  · intro st ig text nid ts ts2 sid rid hd ha hrid hz hcount
    have hout : handleSend st ig text nid ts none (some sid) =
        (addUserMessage st nid ts text, jsSetInsert ig sid,
         [ApiCall.appendMessage rid "user" text]) := by
      simp [handleSend, hd, ha, hrid, jsTruthyId, hz, deliverHandoff,
        addUserMessage]
    have hone : countText (addUserMessage st nid ts text).messages text = 1 := by
      simp only [addUserMessage]
      rw [countText_append, hcount]
      simp [countText]
    have hst1d : (addUserMessage st nid ts text).disclaimerAccepted = true := by
      simp [addUserMessage, hd]
    have hst1a : (addUserMessage st nid ts text).handoffActive = true := by
      simp [addUserMessage, ha]
    have hst1r : jsTruthyId (addUserMessage st nid ts text).handoffRequestId
        = true := by
      simp [addUserMessage, hrid, jsTruthyId, hz]
    have hmem : (jsSetInsert ig sid).contains sid = true :=
      jsSetInsert_contains ig sid
    have hpoll := chatPollStep_run (addUserMessage st nid ts text)
      (jsSetInsert ig sid) [⟨sid, "user", text, ts2⟩] ⟨sid, "user", text, ts2⟩
      hst1d hst1a hst1r rfl
    have hfilter : ([(⟨sid, "user", text, ts2⟩ : ServerMsg)].filter
        (fun m => ¬(m.sender = "user" ∧ (jsSetInsert ig sid).contains m.id)))
        = [] := by
      have hmem2 : sid ∈ jsSetInsert ig sid := by simpa using hmem
      simp [hmem2]
    rw [hout]
    refine ⟨hone, hmem, ?_, ?_⟩
    · simp only [hpoll, hfilter, List.map_nil, List.append_nil]
      exact hone
    · simp only [hpoll]
      exact contains_filter_false _ _ sid (by simp)
  · intro st ig data lastMsg hd ha htr hl i hi
    rw [chatPollStep_run st ig data lastMsg hd ha htr hl] at hi ⊢
    simp only [List.mem_filter, decide_not] at hi
    have := hi.2
    simp only [Bool.not_eq_true', decide_eq_false_iff_not, not_le] at this
    simpa using this

/-- C2 witness: the theorem applied at a concrete handoff state. -/
theorem C2_echo_suppression_witness :
    countText (chatPollStep
        (handleSend stHandoff [] "help" (MsgId.client 1) "t1" none (some 9)).1
        (handleSend stHandoff [] "help" (MsgId.client 1) "t1" none (some 9)).2.1
        [⟨9, "user", "help", "t2"⟩]).1.messages "help" = 1
    ∧ (chatPollStep
        (handleSend stHandoff [] "help" (MsgId.client 1) "t1" none (some 9)).1
        (handleSend stHandoff [] "help" (MsgId.client 1) "t1" none (some 9)).2.1
        [⟨9, "user", "help", "t2"⟩]).2.contains 9 = false := by
  have h := C2_echo_suppression.1 stHandoff [] "help" (MsgId.client 1) "t1"
    "t2" 9 5 rfl rfl rfl (by decide) (by decide)
  exact ⟨h.2.2.1, h.2.2.2⟩

/-- C8: selecting a request fetches the thread with after_id 0 and stores
exactly the returned messages, with the cursor at the last returned id;
each poll passes the current cursor as after_id and, when messages come
back, appends exactly the returned messages and advances the cursor to the
last returned id. -/
theorem C8_admin_cursor (token : String) (selectedId : Option Nat)
    (st : AdminThreadState) (data : List ServerMsg)
    (hsel : jsTruthyId selectedId = true) (htok : token ≠ "") :
    (adminSelectStep token selectedId st data).2 =
      [AdminApiCall.getMessages (selectedId.getD 0) 0]
    ∧ (adminSelectStep token selectedId st data).1.messages =
      data.map toAdminMsg
    ∧ (∀ m, data.getLast? = some m →
        (adminSelectStep token selectedId st data).1.lastMessageId = m.id)
    ∧ (data = [] →
        (adminSelectStep token selectedId st data).1.lastMessageId = 0)
    ∧ (adminPollStep token selectedId st data).2 =
      [AdminApiCall.getMessages (selectedId.getD 0) st.lastMessageId]
    ∧ (∀ m, data.getLast? = some m →
        (adminPollStep token selectedId st data).1.messages =
          st.messages ++ data.map toAdminMsg
        ∧ (adminPollStep token selectedId st data).1.lastMessageId = m.id)
    ∧ (data = [] → (adminPollStep token selectedId st data).1 = st) := by
  refine ⟨?_, ?_, ?_, ?_, ?_, ?_, ?_⟩
  · simp [adminSelectStep, hsel, htok]
  · cases hl : data.getLast? with
    | none => simp [adminSelectStep, hsel, htok, hl]
    | some m =>
      have hlm : (data.map toAdminMsg).getLast? = some (toAdminMsg m) := by
        rw [List.getLast?_map, hl]; rfl
      simp [adminSelectStep, hsel, htok, hlm]
  · intro m hl
    have hlm : (data.map toAdminMsg).getLast? = some (toAdminMsg m) := by
      rw [List.getLast?_map, hl]; rfl
    simp [adminSelectStep, hsel, htok, hlm, toAdminMsg]
  · intro hnil
    subst hnil
    simp [adminSelectStep, hsel, htok]
  · cases hl : data.getLast? with
    | none => simp [adminPollStep, hsel, htok, hl]
    | some m => simp [adminPollStep, hsel, htok, hl]
  · intro m hl
    constructor <;> simp [adminPollStep, hsel, htok, hl]
  · intro hnil
    subst hnil
    simp [adminPollStep, hsel, htok]

/-- C8 witness: the theorem applied at a concrete selection and poll. -/
theorem C8_admin_cursor_witness :
    (adminSelectStep "tok" (some 1) ⟨[], 0⟩
        [⟨4, "user", "hi", "t"⟩]).2 = [AdminApiCall.getMessages 1 0]
    ∧ (adminPollStep "tok" (some 1) ⟨[⟨4, "user", "hi", "t"⟩], 4⟩
        [⟨6, "agent", "yes", "t2"⟩]).1.lastMessageId = 6 := by
  constructor
  · exact (C8_admin_cursor "tok" (some 1) ⟨[], 0⟩ [⟨4, "user", "hi", "t"⟩]
      (by decide) (by decide)).1
  · exact ((C8_admin_cursor "tok" (some 1) ⟨[⟨4, "user", "hi", "t"⟩], 4⟩
      [⟨6, "agent", "yes", "t2"⟩] (by decide) (by decide)).2.2.2.2.2.1
      ⟨6, "agent", "yes", "t2"⟩ rfl).2

/-- C5 counterexample: a non-administrator operator acting on a request
assigned to a different operator still issues the status-transition relay
call, so the claim that every action is rejected client-side under the
assignment rule is false. -/
theorem C5_counterexample :
    assignmentLocked (some reqAssigned) "bob" "operator" = true
    ∧ closedLocked (some reqAssigned) = false
    ∧ adminHandleStatus "tok" (some 1) (some reqAssigned) "closed" =
      some (AdminApiCall.updateStatus 1 "closed") := by
  refine ⟨by decide, by decide, ?_⟩
  decide

/-- C5 amended: sending a reply is rejected client-side whenever the
assignment or the closed rule is violated, and an administrator is exempt
from the assignment restriction; a status transition is rejected
client-side only when the request is closed — the assignment rule is not
checked client-side for status transitions. -/
theorem C5_client_side_locks (token draft : String) (selectedId : Option Nat)
    (req : Option AdminRequest) (username userType status : String) :
    (assignmentLocked req username userType = true ∨
        closedLocked req = true →
      adminHandleSend token draft selectedId req username userType = none)
    ∧ (closedLocked req = true →
      adminHandleStatus token selectedId req status = none)
    ∧ (userType = "admin" → assignmentLocked req username userType = false) := by
  refine ⟨?_, ?_, ?_⟩
  · intro h
    rcases h with h | h <;> simp [adminHandleSend, h]
  · intro h
    simp [adminHandleStatus, h]
  · intro h
    subst h
    cases req with
    | none => rfl
    | some r =>
      cases hr : r.assigned_to with
      | none => simp [assignmentLocked, hr]
      | some a => simp [assignmentLocked, hr]

/-- C5 witness: the amended theorem applied at concrete console states. -/
theorem C5_client_side_locks_witness :
    adminHandleSend "tok" "hi" (some 1) (some reqAssigned) "bob" "operator"
      = none
    ∧ adminHandleStatus "tok" (some 2) (some reqClosed) "assigned" = none
    ∧ assignmentLocked (some reqAssigned) "bob" "admin" = false := by
  refine ⟨?_, ?_, ?_⟩
  · exact (C5_client_side_locks "tok" "hi" (some 1) (some reqAssigned) "bob"
      "operator" "assigned").1 (Or.inl (by decide))
  · exact (C5_client_side_locks "tok" "" (some 2) (some reqClosed) "x"
      "operator" "assigned").2.1 (by decide)
  · exact (C5_client_side_locks "tok" "" (some 1) (some reqAssigned) "bob"
      "admin" "assigned").2.2 rfl

/-- C4 counterexample: at teardown the appended system note carries the
text "User left the chat. Session closed.", and no teardown delivery
carries a note whose text is "session closed", contradicting the claim
about the note text. -/
theorem C4_teardown_counterexample :
    (closeHandoff 7 false true).2 =
      [TeardownEvent.storageSet "crisos_handoff_closed_on_unload" "1",
       TeardownEvent.storageSet "crisos_handoff_request_id" "7",
       TeardownEvent.beacon messagesPath
         (TeardownPayload.note 7 "system"
           "User left the chat. Session closed."),
       TeardownEvent.beacon (statusPath 7)
         (TeardownPayload.statusChange "closed")]
    ∧ ((closeHandoff 7 false true).2.all (fun e =>
        match e with
        | TeardownEvent.beacon _ (TeardownPayload.note _ _ t) =>
          t ≠ "session closed"
        | TeardownEvent.fetchKeepalive _ (TeardownPayload.note _ _ t) =>
          t ≠ "session closed"
        | _ => true)) = true := by
  constructor
  · decide
  · decide

/-- C4 amended: on teardown with a known request id the guard first writes
the tab-scoped flag and the request id, then fires the closure note (text
"User left the chat. Session closed.") and the closed transition, through
sendBeacon when available and a keepalive fetch otherwise, and the closing
flag makes the whole sequence fire at most once per teardown. -/
theorem C4_teardown_behavior (rid : Nat) :
    closeHandoff rid false true = (true,
      [TeardownEvent.storageSet "crisos_handoff_closed_on_unload" "1",
       TeardownEvent.storageSet "crisos_handoff_request_id" (toString rid),
       TeardownEvent.beacon messagesPath
         (TeardownPayload.note rid "system"
           "User left the chat. Session closed."),
       TeardownEvent.beacon (statusPath rid)
         (TeardownPayload.statusChange "closed")])
    ∧ closeHandoff rid false false = (true,
      [TeardownEvent.storageSet "crisos_handoff_closed_on_unload" "1",
       TeardownEvent.storageSet "crisos_handoff_request_id" (toString rid),
       TeardownEvent.fetchKeepalive messagesPath
         (TeardownPayload.note rid "system"
           "User left the chat. Session closed."),
       TeardownEvent.fetchKeepalive (statusPath rid)
         (TeardownPayload.statusChange "closed")])
    ∧ (∀ beaconAvailable, closeHandoff rid true beaconAvailable =
        (true, [])) :=
  ⟨rfl, rfl, fun _ => rfl⟩

/-- State reached by the reopen effect before it stops: closure notice
removed, request id restored, cursor reset, but handoffActive still off. -/
def stAfterCrash : ChatState :=
  { stReload with
    messages := [],
    handoffRequestId := some 7,
    handoffLastMessageId := 0 }

/-- C1: on reload with the tab-scoped flag and a stored request id, the
effect clears the flag and removes the duplicated closure notice, but the
dispatch of setHandoffActive raises a ReferenceError (the action is not
imported by the ChatPanel module), so handoffActive is never restored and
the reopen transition is never issued; with the flag absent the effect does
nothing. -/
theorem C1_reopen_crash :
    reopenEffect ⟨some "1", some "7"⟩ stReload =
      (⟨none, none⟩, stAfterCrash, [],
       some (JsError.referenceError "setHandoffActive"))
    ∧ (∀ st : ChatState,
        reopenEffect ⟨none, none⟩ st = (⟨none, none⟩, st, [], none)) := by
  constructor
  · rfl
  · intro st; rfl

end Crisos

/-- Sanity example: a trigger phrase is detected case-insensitively. -/
example : Crisos.detectHandoff "We are Connecting you to a HUMAN OPERATOR now" = true := by
  decide

example : Crisos.detectHandoff "hello there" = false := by
  decide
